import Mathlib

/-!
Verification of the document ingestion and content-analysis engine of the
startup-analyst agent (`agent/sub_agents/file_ingestion_agent/doc_ingestion_tool.py`).

Texts are modelled as `List Char`.  Python character classes are modelled at the
ASCII level: `\s` is the six ASCII whitespace characters, `\w` is ASCII
letters, digits and underscore.  Python float arithmetic on the small ratios
involved is modelled by exact rational / cross-multiplied integer comparison.
-/

namespace DocIngestion

/-- ASCII model of Python's whitespace class (`str.strip`, `str.split`, regex `\s`):
space, tab, newline, carriage return, vertical tab, form feed. -/
def pySpace (c : Char) : Bool :=
  c = ' ' || c = '\t' || c = '\n' || c = '\r' || c = '\x0b' || c = '\x0c'

/-- ASCII model of the regex word class `\w`: letters, digits, underscore.
(Python's Unicode `\w` additionally covers non-ASCII letters and digits;
those are modelled as non-word characters here.) -/
def pyWordChar (c : Char) : Bool :=
  c.isAlpha || c.isDigit || c = '_'

/-- Python `str.lower` at the ASCII level. -/
def pyLower (l : List Char) : List Char := l.map Char.toLower

/-- Python `str.strip()`: drop whitespace from both ends. -/
def pyStrip (l : List Char) : List Char :=
  ((l.dropWhile pySpace).reverse.dropWhile pySpace).reverse

/-- The guard `not text or not text.strip()` used by all three analyzers:
true iff the text is empty or whitespace-only. -/
def pyBlank (l : List Char) : Bool :=
  l.isEmpty || (pyStrip l).isEmpty

/-- `needle in haystack` for Python strings: contiguous-substring membership. -/
def containsSub (needle : List Char) : List Char → Bool
  | [] => needle.isEmpty
  | c :: rest => needle.isPrefixOf (c :: rest) || containsSub needle rest

/-- Python `text.split()`: split on whitespace runs, discarding empty fields. -/
def pySplitWsAux : List Char → List Char → List (List Char)
  | [], acc => if acc.isEmpty then [] else [acc.reverse]
  | c :: rest, acc =>
    if pySpace c then
      if acc.isEmpty then pySplitWsAux rest []
      else acc.reverse :: pySplitWsAux rest []
    else pySplitWsAux rest (c :: acc)

def pySplitWs (l : List Char) : List (List Char) := pySplitWsAux l []

/-- A sentence separator for `re.split(r'[.!?]+', text)`. -/
def isSentSep (c : Char) : Bool := c = '.' || c = '!' || c = '?'

/-- `re.split(r'[.!?]+', text)`: split on maximal runs of `.`, `!`, `?`. -/
def pySplitSent : List Char → List (List Char)
  | [] => [[]]
  | c :: rest =>
    if isSentSep c then
      match rest with
      | [] => [[], []]
      | d :: rest' =>
        if isSentSep d then pySplitSent (d :: rest')
        else [] :: pySplitSent (d :: rest')
    else
      match pySplitSent rest with
      | [] => [[c]]
      | p :: ps => (c :: p) :: ps

/-- `text.split('\n\n')` (the two-character literal separator, leftmost,
non-overlapping). -/
def pySplitNN : List Char → List (List Char)
  | [] => [[]]
  | '\n' :: '\n' :: rest => [] :: pySplitNN rest
  | c :: rest =>
    match pySplitNN rest with
    | [] => [[c]]
    | p :: ps => (c :: p) :: ps

/-- `text.split('\n')`. -/
def pySplitNl : List Char → List (List Char)
  | [] => [[]]
  | '\n' :: rest => [] :: pySplitNl rest
  | c :: rest =>
    match pySplitNl rest with
    | [] => [[c]]
    | p :: ps => (c :: p) :: ps

/-! ## Quality Scorer (`_analyze_content_quality`) -/

/-- `text.count(' ') + text.count('\t') + text.count('\n')`. -/
def whitespaceChars (t : List Char) : Nat :=
  t.countP (fun c => c = ' ' || c = '\t' || c = '\n')

/-- `text.count('\n')`. -/
def lineBreaks (t : List Char) : Nat := t.countP (fun c => c = '\n')

/-- `len(re.findall(r'[^\w\s]', text))`: characters that are neither word
characters nor whitespace. -/
def specialChars (t : List Char) : Nat :=
  t.countP (fun c => !pyWordChar c && !pySpace c)

/-- Head of a list is an ASCII letter. -/
def headIsLetter : List Char → Bool
  | [] => false
  | c :: _ => c.isAlpha

/-- Head of a list is an ASCII digit. -/
def headIsDigit : List Char → Bool
  | [] => false
  | c :: _ => c.isDigit

/-- Starting at the list head: one or more whitespace characters followed by a
character satisfying `p`. -/
def wsRunThen (p : List Char → Bool) : List Char → Bool
  | [] => false
  | c :: rest => pySpace c && (p rest || wsRunThen p rest)

/-- `re.search(r'[a-zA-Z]{1,2}\s+[a-zA-Z]{1,2}', text)`: the pattern matches
somewhere iff some letter is followed by a whitespace run and then a letter. -/
def hasSplitWords : List Char → Bool
  | [] => false
  | c :: rest => (c.isAlpha && wsRunThen headIsLetter rest) || hasSplitWords rest

/-- `re.search(r'[0-9]+\s+[0-9]+', text)`: a digit followed by a whitespace run
and then a digit. -/
def hasSplitNumbers : List Char → Bool
  | [] => false
  | c :: rest => (c.isDigit && wsRunThen headIsDigit rest) || hasSplitNumbers rest

/-- `re.search(r'[^\x00-\x7F]', text)`: some non-ASCII character. -/
def hasNonAscii (t : List Char) : Bool := t.any (fun c => 127 < c.toNat)

/-- The `ocr_issues` list, in source order. -/
def ocrIssues (t : List Char) : List String :=
  (if hasSplitWords t then ["Possible word splitting"] else []) ++
  (if hasSplitNumbers t then ["Possible number splitting"] else []) ++
  (if hasNonAscii t then ["Non-ASCII characters detected"] else [])

/-- The quality score for non-blank text: start at 100; deduct 20 if the
whitespace ratio exceeds 0.3, 15 if the special-character ratio exceeds 0.1,
10 if the line-break ratio exceeds 0.1, and 5 per OCR issue; clamp to [0,100].
Ratio thresholds are compared exactly by cross-multiplication. -/
def qualityScore (t : List Char) : Int :=
  let total := t.length
  let q : Int := 100
  let q := if 10 * whitespaceChars t > 3 * total then q - 20 else q
  let q := if 10 * specialChars t > total then q - 15 else q
  let q := if 10 * lineBreaks t > total then q - 10 else q
  let q := if (ocrIssues t).length > 0 then q - 5 * (ocrIssues t).length else q
  max 0 (min 100 q)

/-- The integrity tier derived from the score. -/
def integrityOf (score : Int) : String :=
  if score ≥ 90 then "excellent"
  else if score ≥ 75 then "good"
  else if score ≥ 60 then "fair"
  else "poor"

/-- Round to the nearest integer, ties to even, as Python's `round` does
(modelled on the exact rational; the float representation error of the
argument is not modelled). -/
def roundHalfEven (y : ℚ) : ℤ :=
  let f := ⌊y⌋
  let r := y - f
  if r < 1 / 2 then f
  else if 1 / 2 < r then f + 1
  else if f % 2 = 0 then f else f + 1

/-- Python `round(x, 3)` on the exact rational value. -/
def pyRound3 (x : ℚ) : ℚ := (roundHalfEven (1000 * x) : ℚ) / 1000

structure QualityMetrics where
  text_quality_score : Int
  ocr_confidence : ℚ
  encoding_issues : Nat
  special_characters_ratio_num : Nat
  whitespace_ratio_num : Nat
  line_breaks_ratio_num : Nat
  quality_issues : List String
  text_integrity : String
  /-- Absent (`none`) in the empty-content branch. -/
  total_characters : Option Nat
  /-- Absent (`none`) in the empty-content branch. -/
  readable_characters : Option Int
  deriving Repr, DecidableEq

/-- The empty-content record returned by the short-circuit branch (it carries
no total/readable character keys). -/
def emptyQualityMetrics : QualityMetrics :=
  { text_quality_score := 0
    ocr_confidence := 0
    encoding_issues := 0
    special_characters_ratio_num := 0
    whitespace_ratio_num := 0
    line_breaks_ratio_num := 0
    quality_issues := ["Empty content"]
    text_integrity := "poor"
    total_characters := none
    readable_characters := none }

/-- `_analyze_content_quality`.  The three reported ratios are kept as raw
numerator counts (the denominator is `total_characters`); the rounded float
presentation of the ratios is not modelled, the threshold comparisons in the
score are exact. -/
def analyzeContentQuality (t : List Char) : QualityMetrics :=
  if pyBlank t then emptyQualityMetrics
  else
    let score := qualityScore t
    { text_quality_score := score
      ocr_confidence := pyRound3 ((score : ℚ) / 100)
      encoding_issues := if hasNonAscii t then 1 else 0
      special_characters_ratio_num := specialChars t
      whitespace_ratio_num := whitespaceChars t
      line_breaks_ratio_num := lineBreaks t
      quality_issues := ocrIssues t
      text_integrity := integrityOf score
      total_characters := some t.length
      readable_characters := some ((t.length : Int) - specialChars t) }

/-! ## Language detection (`_detect_language`) -/

def english_words : List (List Char) :=
  ["the", "and", "or", "but", "in", "on", "at", "to", "for", "of", "with", "by"].map
    String.toList

def spanish_words : List (List Char) :=
  ["el", "la", "de", "que", "y", "a", "en", "un", "es", "se", "no", "te", "lo", "le"].map
    String.toList

/-- The French list in the source contains the word "et" twice; the duplicate is
kept because the count sums over list entries. -/
def french_words : List (List Char) :=
  ["le", "la", "de", "et", "à", "un", "il", "être", "et", "en", "avoir", "que", "pour"].map
    String.toList

/-- `sum(1 for word in words if word in text_lower)`: substring membership, one
per list entry. -/
def stopwordCount (wordList : List (List Char)) (textLower : List Char) : Nat :=
  (wordList.filter (fun w => containsSub w textLower)).length

def englishCount (t : List Char) : Nat := stopwordCount english_words (pyLower t)
def spanishCount (t : List Char) : Nat := stopwordCount spanish_words (pyLower t)
def frenchCount (t : List Char) : Nat := stopwordCount french_words (pyLower t)

/-- `_detect_language`: the if/elif cascade from the source. -/
def detectLanguage (t : List Char) : String :=
  let e := englishCount t
  let s := spanishCount t
  let f := frenchCount t
  if e > s && e > f then "english"
  else if s > f then "spanish"
  else if f > 0 then "french"
  else "unknown"

/-! ## Document-type classification (`_classify_document_type`) -/

/-- `any(word in text_lower for word in kws)`. -/
def anyKeyword (kws : List String) (lower : List Char) : Bool :=
  kws.any (fun w => containsSub w.toList lower)

def pitch_deck_kws : List String :=
  ["pitch deck", "pitch deck", "investor presentation", "funding deck"]
def business_plan_kws : List String :=
  ["business plan", "business proposal", "executive summary"]
def financial_document_kws : List String :=
  ["financial statement", "income statement", "balance sheet", "cash flow"]
def legal_document_kws : List String :=
  ["contract", "agreement", "terms and conditions", "legal document"]
def resume_kws : List String :=
  ["resume", "cv", "curriculum vitae", "personal profile"]
def email_kws : List String :=
  ["email", "message", "correspondence"]
def invoice_kws : List String := ["invoice", "receipt", "bill"]
def report_kws : List String := ["report", "analysis", "study"]

/-- `_classify_document_type`: ordered keyword checks over the lower-cased text,
then filename cues, defaulting to `general_document`.  The `file_extension`
argument is unused, as in the source. -/
def classifyDocumentType (text file_extension filename : List Char) : String :=
  let _ := file_extension
  let tl := pyLower text
  let fl := pyLower filename
  if anyKeyword pitch_deck_kws tl then "pitch_deck"
  else if anyKeyword business_plan_kws tl then "business_plan"
  else if anyKeyword financial_document_kws tl then "financial_document"
  else if anyKeyword legal_document_kws tl then "legal_document"
  else if anyKeyword resume_kws tl then "resume"
  else if anyKeyword email_kws tl then "email"
  else if anyKeyword invoice_kws fl then "invoice"
  else if anyKeyword report_kws fl then "report"
  else "general_document"

/-! ## Document title (`_generate_document_title`) -/

/-- Python `str.isupper()` at the ASCII level: at least one cased character and
no lower-case character. -/
def pyIsUpper (l : List Char) : Bool :=
  l.any (fun c => c.isUpper || c.isLower) && !(l.any Char.isLower)

/-- Index of the last occurrence of `c`, if any. -/
def lastIdxOf (c : Char) (l : List Char) : Option Nat :=
  match l.reverse.indexOf? c with
  | none => none
  | some j => some (l.length - 1 - j)

/-- `os.path.splitext(name)[0]` for a plain file name: the extension starts at
the last dot that is not among the leading dots. -/
def splitextStem (name : List Char) : List Char :=
  let lead := (name.takeWhile (fun c => c = '.')).length
  let rest := name.drop lead
  match lastIdxOf '.' rest with
  | some j => name.take (lead + j)
  | none => name

/-- `os.path.splitext(name)[1]` for a plain file name. -/
def splitextExt (name : List Char) : List Char :=
  let lead := (name.takeWhile (fun c => c = '.')).length
  let rest := name.drop lead
  match lastIdxOf '.' rest with
  | some j => rest.drop j
  | none => []

/-- The title condition `len(line) > 10 and len(line) < 100 and not
line.isupper()`. -/
def titlePred (line : List Char) : Bool :=
  line.length > 10 && line.length < 100 && !pyIsUpper line

/-- The loop body of `_generate_document_title`: return the first stripped line
satisfying the title condition. -/
def titleFromLines (fallback : List Char) : List (List Char) → List Char
  | [] => fallback
  | line :: rest =>
    let line := pyStrip line
    if titlePred line then line
    else titleFromLines fallback rest

/-- `_generate_document_title`: scan the first 10 lines, fall back to the
filename stem. -/
def generateDocumentTitle (text filename : List Char) : List Char :=
  titleFromLines (splitextStem filename) ((pySplitNl text).take 10)

/-! ## Structure analysis (`_analyze_document_structure`)

The source counts matches of `re.MULTILINE` patterns.  The counts are modelled
per line (each pattern is anchored at `^`); the corner case in which `\s` inside
a character class spans a newline and merges two adjacent matching lines is not
modelled. -/

/-- `^[A-Z\s]{3,}$`: a line of at least three characters, all upper-case or
whitespace. -/
def lineAllCaps (l : List Char) : Bool :=
  l.length ≥ 3 && l.all (fun c => c.isUpper || pySpace c)

/-- `^\d+\.?\s+[A-Z]` as a line prefix: digits, optional dot, whitespace run,
upper-case letter. -/
def lineNumHeader (l : List Char) : Bool :=
  let ds := l.takeWhile Char.isDigit
  let r := l.drop ds.length
  let r := match r with
    | '.' :: r' => r'
    | _ => r
  !ds.isEmpty &&
    (match r with
     | [] => false
     | c :: rest => pySpace c && headIsUpperAfterWs rest)
where
  headIsUpperAfterWs (l : List Char) : Bool :=
    match l.dropWhile pySpace with
    | [] => false
    | c :: _ => c.isUpper

def lineIsHeader (l : List Char) : Bool := lineAllCaps l || lineNumHeader l

/-- `^[\s]*[•\-\*]\s+`: optional leading whitespace, a bullet marker, then at
least one whitespace character. -/
def lineIsBullet (l : List Char) : Bool :=
  match l.dropWhile pySpace with
  | b :: c :: _ => (b = '•' || b = '-' || b = '*') && pySpace c
  | _ => false

/-- `^\d+\.\s+`: digits, a dot, then at least one whitespace character. -/
def lineIsNumbered (l : List Char) : Bool :=
  let ds := l.takeWhile Char.isDigit
  !ds.isEmpty &&
    (match l.drop ds.length with
     | '.' :: c :: _ => pySpace c
     | _ => false)

/-- `^.*\s{3,}.*$`: the line contains three consecutive whitespace characters. -/
def lineIsTable : List Char → Bool
  | a :: b :: c :: rest =>
    (pySpace a && pySpace b && pySpace c) || lineIsTable (b :: c :: rest)
  | _ => false

/-- `^[A-Z][A-Za-z\s]{5,}:?$`: an upper-case letter followed by at least five
letters/whitespace, with an optional trailing colon. -/
def lineIsSection (l : List Char) : Bool :=
  match l with
  | [] => false
  | c :: rest =>
    let cls := fun d => Char.isAlpha d || pySpace d
    c.isUpper &&
      ((rest.length ≥ 5 && rest.all cls) ||
       (match rest.reverse with
        | ':' :: mid => mid.length ≥ 5 && mid.all cls
        | _ => false))

structure StructureAnalysis where
  headers_count : Nat
  bullet_points_count : Nat
  numbered_lists_count : Nat
  table_lines_count : Nat
  sections_count : Nat
  has_structure : Bool
  structure_type : String
  deriving Repr, DecidableEq

/-- `_determine_structure_type` (receives the match lists; only their lengths
are used). -/
def determineStructureType (headers bullets numbers : Nat) : String :=
  if headers > 5 then "formal_document"
  else if bullets > 5 then "bullet_point_format"
  else if numbers > 5 then "numbered_list"
  else if headers > 0 then "semi_structured"
  else "unstructured"

def analyzeDocumentStructure (t : List Char) : StructureAnalysis :=
  let lines := pySplitNl t
  let headers := (lines.filter lineIsHeader).length
  let bullets := (lines.filter lineIsBullet).length
  let numbers := (lines.filter lineIsNumbered).length
  let tables := (lines.filter lineIsTable).length
  let sections := (lines.filter lineIsSection).length
  { headers_count := headers
    bullet_points_count := bullets
    numbered_lists_count := numbers
    table_lines_count := tables
    sections_count := sections
    has_structure := headers > 0 || bullets > 0 || numbers > 0
    structure_type := determineStructureType headers bullets numbers }

/-! ## Content categorization (`_categorize_content`) -/

def financial_cat_kws : List String := ["revenue", "profit", "sales", "income", "financial"]
def market_cat_kws : List String := ["market", "customer", "user", "target", "demographic"]
def product_cat_kws : List String := ["product", "service", "feature", "development"]
def team_cat_kws : List String := ["team", "employee", "staff", "founder", "ceo"]
def funding_cat_kws : List String := ["funding", "investment", "investor", "capital", "raise"]
def tech_cat_kws : List String := ["technology", "tech", "software", "platform", "app"]
def legal_cat_kws : List String := ["legal", "contract", "agreement", "terms", "compliance"]

def categorizeContent (t : List Char) : List String :=
  let tl := pyLower t
  let cats :=
    (if anyKeyword financial_cat_kws tl then ["financial"] else []) ++
    (if anyKeyword market_cat_kws tl then ["market_analysis"] else []) ++
    (if anyKeyword product_cat_kws tl then ["product"] else []) ++
    (if anyKeyword team_cat_kws tl then ["team"] else []) ++
    (if anyKeyword funding_cat_kws tl then ["funding"] else []) ++
    (if anyKeyword tech_cat_kws tl then ["technology"] else []) ++
    (if anyKeyword legal_cat_kws tl then ["legal"] else [])
  if cats.isEmpty then ["general"] else cats

/-! ## Key sections (`_identify_key_sections`)

Each pattern is a phrase of literal words separated by `\s+`, matched
case-insensitively, with an optional trailing `s` on some phrases. -/

structure Phrase where
  words : List (List Char)
  optS : Bool
  deriving Repr

/-- Match a literal lower-cased word at the head of the text (case-insensitive);
return the remainder. -/
def matchWordCI : List (List Char) → List Char → Option (List Char)
  | [], t => some t
  | [] :: ws, t => matchWordCI ws t
  | (x :: xs) :: ws, c :: cs =>
    if c.toLower = x then matchWordCI (xs :: ws) cs else none
  | (_ :: _) :: _, [] => none

/-- Consume at least one whitespace character (maximal run). -/
def wsRun1 : List Char → Option (List Char)
  | [] => none
  | c :: cs => if pySpace c then some (cs.dropWhile pySpace) else none

/-- Match a phrase at the head of the text; return the number of characters
consumed.  `\s+` between words is matched maximally (the following character is
always a letter, so maximal munch agrees with the regex). -/
def matchPhrase (p : Phrase) (t : List Char) : Option Nat :=
  go p.words t >>= fun r =>
    let r := if p.optS then
        match r with
        | c :: cs => if c.toLower = 's' then cs else r
        | [] => r
      else r
    some (t.length - r.length)
where
  go : List (List Char) → List Char → Option (List Char)
    | [], t => some t
    | [w], t => matchWordCI [w] t
    | w :: ws, t => matchWordCI [w] t >>= wsRun1 >>= go ws

/-- `re.finditer` for one phrase: non-overlapping matches, scanning left to
right, resuming after each match.  Returns (offset, length) pairs.  The fuel is
the remaining text length; every step consumes at least one character. -/
def scanPhrase (p : Phrase) : Nat → Nat → List Char → List (Nat × Nat)
  | 0, _, _ => []
  | _ + 1, _, [] => []
  | fuel + 1, pos, c :: rest =>
    match matchPhrase p (c :: rest) with
    | some len =>
      if len = 0 then scanPhrase p fuel (pos + 1) rest
      else (pos, len) :: scanPhrase p fuel (pos + len) ((c :: rest).drop len)
    | none => scanPhrase p fuel (pos + 1) rest

def mkPhrase (ws : List String) (optS : Bool) : Phrase :=
  { words := ws.map String.toList, optS := optS }

/-- The fixed section-header patterns, in source order. -/
def section_phrases : List Phrase :=
  [ mkPhrase ["executive", "summary"] false
  , mkPhrase ["introduction"] false
  , mkPhrase ["problem", "statement"] false
  , mkPhrase ["solution"] false
  , mkPhrase ["market", "analysis"] false
  , mkPhrase ["business", "model"] false
  , mkPhrase ["financial", "projection"] true
  , mkPhrase ["team"] false
  , mkPhrase ["funding", "requirement"] true
  , mkPhrase ["conclusion"] false
  , mkPhrase ["appendix"] false
  , mkPhrase ["reference"] true ]

structure SectionHit where
  title : List Char
  position : Nat
  ty : String
  deriving Repr, DecidableEq

def identifyKeySections (t : List Char) : List SectionHit :=
  section_phrases.flatMap fun p =>
    (scanPhrase p t.length 0 t).map fun pl =>
      { title := pyStrip ((t.drop pl.1).take pl.2)
        position := pl.1
        ty := "section_header" }

/-! ## Readability (`_calculate_readability`) -/

/-- Python `round(x, 2)` on the exact rational. -/
def pyRound2 (x : ℚ) : ℚ := (roundHalfEven (100 * x) : ℚ) / 100

def calculateReadability (t : List Char) : ℚ :=
  let sentences := pySplitSent t
  let words := pySplitWs t
  if sentences.length = 0 || words.length = 0 then 0
  else
    let asl : ℚ := (words.length : ℚ) / (sentences.length : ℚ)
    let awl : ℚ := ((words.map List.length).sum : ℚ) / (words.length : ℚ)
    pyRound2 (asl * (1 / 2) + awl * (3 / 10))

/-! ## Content Analyzer (`_analyze_document_content`) -/

structure ContentAnalysis where
  content_length : Nat
  word_count : Nat
  sentence_count : Nat
  paragraph_count : Nat
  language : String
  document_type : String
  structure_analysis : Option StructureAnalysis
  content_categories : List String
  key_sections : List SectionHit
  readability_score : ℚ
  average_words_per_sentence : Option ℚ
  average_sentences_per_paragraph : Option ℚ
  deriving Repr, DecidableEq

/-- The record returned for empty or whitespace-only text: zero counts,
language `unknown`, document type `empty`, empty structure dictionary, empty
lists, readability 0.  The two average fields are absent from this branch
(`none`). -/
def emptyContentAnalysis : ContentAnalysis :=
  { content_length := 0
    word_count := 0
    sentence_count := 0
    paragraph_count := 0
    language := "unknown"
    document_type := "empty"
    structure_analysis := none
    content_categories := []
    key_sections := []
    readability_score := 0
    average_words_per_sentence := none
    average_sentences_per_paragraph := none }

def analyzeDocumentContent (text file_extension filename : List Char) : ContentAnalysis :=
  if pyBlank text then emptyContentAnalysis
  else
    let words := pySplitWs text
    let sentences := pySplitSent text
    let paragraphs := (pySplitNN text).filter (fun p => !(pyStrip p).isEmpty)
    let word_count := words.length
    let sentence_count := (sentences.filter (fun s => !(pyStrip s).isEmpty)).length
    let paragraph_count := paragraphs.length
    { content_length := text.length
      word_count := word_count
      sentence_count := sentence_count
      paragraph_count := paragraph_count
      language := detectLanguage text
      document_type := classifyDocumentType text file_extension filename
      structure_analysis := some (analyzeDocumentStructure text)
      content_categories := categorizeContent text
      key_sections := identifyKeySections text
      readability_score := calculateReadability text
      average_words_per_sentence := some ((word_count : ℚ) / (max sentence_count 1 : ℚ))
      average_sentences_per_paragraph := some ((sentence_count : ℚ) / (max paragraph_count 1 : ℚ)) }

/-! ## Key Information Extractor (`_extract_key_information`)

The regex `findall` scans are modelled by fueled left-to-right scanners that
resume after each non-overlapping match.  `\b` is modelled as a word/non-word
transition at the ASCII level.  Where the source regex would need general
backtracking (electronic-mail domains, street addresses, website literals) the
scanner implements the documented greedy approximation; none of the frozen
claims depends on those fields. -/

/-- `\b` between a previous character and a match whose first character is a
word character: satisfied iff the previous character is absent or non-word. -/
def boundaryBefore (prev : Option Char) : Bool :=
  match prev with
  | none => true
  | some c => !pyWordChar c

/-- `\b` after a match ending in a word character: the next character is absent
or non-word. -/
def boundaryAfter : List Char → Bool
  | [] => true
  | c :: _ => !pyWordChar c

/-- Generic non-overlapping scanner: `m prev t` reports the length of a match
at the head of `t` (`prev` is the character just before `t`).  Matches of
length zero are skipped. -/
def scanB (m : Option Char → List Char → Option Nat) :
    Nat → Option Char → List Char → List (List Char)
  | 0, _, _ => []
  | _ + 1, _, [] => []
  | fuel + 1, prev, c :: rest =>
    match m prev (c :: rest) with
    | some len =>
      if len = 0 then scanB m fuel (some c) rest
      else
        ((c :: rest).take len) ::
          scanB m fuel (((c :: rest).drop (len - 1)).head?) ((c :: rest).drop len)
    | none => scanB m fuel (some c) rest

def runScan (m : Option Char → List Char → Option Nat) (t : List Char) : List (List Char) :=
  scanB m t.length none t

/-- `list(set(xs))`: modelled as duplicate removal keeping first occurrences
(the ordering produced by a Python set is interpreter-dependent). -/
def firstDedup {α : Type} [DecidableEq α] : List α → List α
  | [] => []
  | x :: xs => x :: firstDedup (xs.filter (fun y => y ≠ x))
termination_by l => l.length
decreasing_by
  simp only [List.length_cons]
  exact Nat.lt_succ_of_le (List.length_filter_le _ _)

/-- Character class `[A-Za-z0-9._%+-]` (mail local part). -/
def localChar (c : Char) : Bool :=
  c.isAlpha || c.isDigit || c = '.' || c = '_' || c = '%' || c = '+' || c = '-'

/-- Character class `[A-Za-z0-9.-]` (mail domain). -/
def domChar (c : Char) : Bool := c.isAlpha || c.isDigit || c = '.' || c = '-'

/-- Matcher for `\b[A-Za-z0-9._%+-]+@[A-Za-z0-9.-]+\.[A-Z|a-z]{2,}\b`: maximal
local and domain runs; the domain must end in a dot followed by at least two
letters.  Backtracking that trims a malformed domain tail is not modelled. -/
def emailMatch (prev : Option Char) (t : List Char) : Option Nat :=
  let loc := t.takeWhile localChar
  if loc.isEmpty then none
  else
    let okBefore :=
      match prev, loc with
      | none, _ => true
      | some p, c :: _ => pyWordChar p != pyWordChar c
      | some _, [] => false
    if !okBefore then none
    else
      match t.drop loc.length with
      | '@' :: r =>
        let dom := r.takeWhile domChar
        let tail := dom.reverse.takeWhile Char.isAlpha
        let rest := dom.reverse.drop tail.length
        if tail.length ≥ 2 && rest.headD ' ' = '.' && rest.length ≥ 2 &&
            boundaryAfter (r.drop dom.length) then
          some (loc.length + 1 + dom.length)
        else none
      | _ => none

def findEmails (t : List Char) : List (List Char) := runScan emailMatch t

/-- The URL character class: `[a-zA-Z]`, `[0-9]`, `[$-_@.&+]` (an ASCII range
from `$` to `_`), `[!*\(\),]`, and `%xx` sequences (whose characters all fall
in the `$`-to-`_` range). -/
def urlChar (c : Char) : Bool :=
  c.isAlpha || c.isDigit || ('$' ≤ c && c ≤ '_') ||
    c = '!' || c = '*' || c = '\\' || c = '(' || c = ')' || c = ','

/-- Matcher for `http[s]?://(?:...)+`. -/
def urlMatch (_ : Option Char) (t : List Char) : Option Nat :=
  let go : List Char → Option Nat := fun r =>
    match r with
    | ':' :: '/' :: '/' :: body =>
      let run := body.takeWhile urlChar
      if run.isEmpty then none else some (3 + run.length)
    | _ => none
  match t with
  | 'h' :: 't' :: 't' :: 'p' :: 's' :: r => (go r).map (· + 5)
  | 'h' :: 't' :: 't' :: 'p' :: r => (go r).map (· + 4)
  | _ => none

def findUrls (t : List Char) : List (List Char) := runScan urlMatch t

/-- Separator class `[-.\s]`. -/
def phoneSep (c : Char) : Bool := c = '-' || c = '.' || pySpace c

structure PhoneGroups where
  g1 : List Char
  g2 : List Char
  g3 : List Char
  g4 : List Char
  deriving Repr, DecidableEq

/-- Take exactly `n` digits from the head. -/
def takeDigits (n : Nat) (t : List Char) : Option (List Char × List Char) :=
  let ds := t.take n
  if ds.length = n && ds.all Char.isDigit then some (ds, t.drop n) else none

/-- The part of the phone pattern after the optional country-code group:
`\(?([0-9]{3})\)?[-.\s]?([0-9]{3})[-.\s]?([0-9]{4})`.  Optional elements are
consumed greedily; no consumed alternative can succeed where the unconsumed one
fails, so no backtracking is needed. -/
def phoneCore (t : List Char) : Option (PhoneGroups × Nat) :=
  let t1 := match t with
    | '(' :: r => r
    | _ => t
  takeDigits 3 t1 >>= fun d2 =>
    let t2 := match d2.2 with
      | ')' :: r => r
      | _ => d2.2
    let t3 := match t2 with
      | c :: r => if phoneSep c then r else t2
      | [] => t2
    takeDigits 3 t3 >>= fun d3 =>
      let t4 := match d3.2 with
        | c :: r => if phoneSep c then r else d3.2
        | [] => d3.2
      takeDigits 4 t4 >>= fun d4 =>
        some ({ g1 := [], g2 := d2.1, g3 := d3.1, g4 := d4.1 },
          t.length - d4.2.length)

/-- The full phone pattern, with the optional group `(\+?1[-.\s]?)?` tried
first (as the regex engine does) and dropped on failure. -/
def phoneMatch (t : List Char) : Option (PhoneGroups × Nat) :=
  let withPrefix : Option (PhoneGroups × Nat) :=
    let pre : Option (List Char × List Char) :=
      match t with
      | '+' :: '1' :: r => some (['+', '1'], r)
      | '1' :: r => some (['1'], r)
      | _ => none
    pre >>= fun pr =>
      let pre2 := match pr.2 with
        | c :: r => if phoneSep c then (pr.1 ++ [c], r) else pr
        | [] => pr
      (phoneCore pre2.2).map fun gl =>
        ({ gl.1 with g1 := pre2.1 }, pre2.1.length + gl.2)
  match withPrefix with
  | some r => some r
  | none => phoneCore t

def scanPhones : Nat → List Char → List PhoneGroups
  | 0, _ => []
  | _ + 1, [] => []
  | fuel + 1, c :: rest =>
    match phoneMatch (c :: rest) with
    | some (g, len) =>
      if len = 0 then scanPhones fuel rest
      else g :: scanPhones fuel ((c :: rest).drop len)
    | none => scanPhones fuel rest

def findPhones (t : List Char) : List PhoneGroups := scanPhones t.length t

/-- Matcher for the date pattern: 1-2 digits, slash or dash, 1-2 digits, slash
or dash, 2-4 digits, with word boundaries on both sides; or the year-first
variant with exactly 4 leading digits.  With maximal digit runs, each
quantifier either accepts the full run or the alternative fails, so the match
is determined by the run lengths. -/
def dateMatch (prev : Option Char) (t : List Char) : Option Nat :=
  if !boundaryBefore prev then none
  else
    let dsep := fun c => c = '/' || c = '-'
    let r1 := t.takeWhile Char.isDigit
    let alt1 : Option Nat :=
      if r1.length = 1 || r1.length = 2 then
        match t.drop r1.length with
        | c :: rest =>
          if dsep c then
            let r2 := rest.takeWhile Char.isDigit
            if r2.length = 1 || r2.length = 2 then
              match rest.drop r2.length with
              | c2 :: rest2 =>
                if dsep c2 then
                  let r3 := rest2.takeWhile Char.isDigit
                  if 2 ≤ r3.length && r3.length ≤ 4 &&
                      boundaryAfter (rest2.drop r3.length) then
                    some (r1.length + 1 + r2.length + 1 + r3.length)
                  else none
                else none
              | [] => none
            else none
          else none
        | [] => none
      else none
    let alt2 : Option Nat :=
      if r1.length = 4 then
        match t.drop 4 with
        | c :: rest =>
          if dsep c then
            let r2 := rest.takeWhile Char.isDigit
            if r2.length = 1 || r2.length = 2 then
              match rest.drop r2.length with
              | c2 :: rest2 =>
                if dsep c2 then
                  let r3 := rest2.takeWhile Char.isDigit
                  if (r3.length = 1 || r3.length = 2) &&
                      boundaryAfter (rest2.drop r3.length) then
                    some (4 + 1 + r2.length + 1 + r3.length)
                  else none
                else none
              | [] => none
            else none
          else none
        | [] => none
      else none
    match alt1 with
    | some n => some n
    | none => alt2

def findDates (t : List Char) : List (List Char) := runScan dateMatch t

/-- `\b term \b` search with `re.IGNORECASE` (the term's first and last
characters are always word characters in the fixed vocabularies). -/
def termPresentAux (lterm : List Char) : Option Char → List Char → Bool
  | _, [] => false
  | prev, c :: rest =>
    let seg := (c :: rest).take lterm.length
    (boundaryBefore prev && seg.length = lterm.length && pyLower seg = lterm &&
      boundaryAfter ((c :: rest).drop lterm.length)) ||
    termPresentAux lterm (some c) rest

def termPresent (term : String) (t : List Char) : Bool :=
  termPresentAux (pyLower term.toList) none t

/-! ### Financial data (`_extract_financial_data`) -/

def digitComma (c : Char) : Bool := c.isDigit || c = ','

/-- Optional cents group `(?:\.\d{2})?`: consumed iff a dot and two digits
follow. -/
def centsLen : List Char → Nat
  | '.' :: d1 :: d2 :: _ => if d1.isDigit && d2.isDigit then 3 else 0
  | _ => 0

/-- `\$[\d,]+(?:\.\d{2})?`. -/
def dollarMatch (_ : Option Char) (t : List Char) : Option Nat :=
  match t with
  | '$' :: r =>
    let run := r.takeWhile digitComma
    if run.isEmpty then none
    else some (1 + run.length + centsLen (r.drop run.length))
  | _ => none

/-- `CODE\s*[\d,]+(?:\.\d{2})?` with `re.IGNORECASE`, for a three-letter
currency code. -/
def codeMatch (code : List Char) (_ : Option Char) (t : List Char) : Option Nat :=
  if pyLower (t.take 3) = code then
    let r := t.drop 3
    let ws := r.takeWhile pySpace
    let run := (r.drop ws.length).takeWhile digitComma
    if run.isEmpty then none
    else some (3 + ws.length + run.length + centsLen (r.drop (ws.length + run.length)))
  else none

/-- `\d+(?:\.\d+)?%`: digits, an optional fraction (preferred when it leads to
a match), then a percent sign. -/
def percentMatch (_ : Option Char) (t : List Char) : Option Nat :=
  let r1 := t.takeWhile Char.isDigit
  if r1.isEmpty then none
  else
    let rest := t.drop r1.length
    let withFrac : Option Nat :=
      match rest with
      | '.' :: r2 =>
        let ds := r2.takeWhile Char.isDigit
        if !ds.isEmpty && (r2.drop ds.length).headD ' ' = '%' then
          some (r1.length + 1 + ds.length + 1)
        else none
      | _ => none
    match withFrac with
    | some n => some n
    | none => if rest.headD ' ' = '%' then some (r1.length + 1) else none

def financial_terms : List String :=
  [ "revenue", "profit", "loss", "income", "expense", "cost", "price"
  , "valuation", "investment", "funding", "capital", "equity", "debt"
  , "cash flow", "margin", "growth", "ROI", "EBITDA" ]

structure FinancialData where
  currency_amounts : List (List Char)
  percentages : List (List Char)
  financial_terms : List String
  deriving Repr, DecidableEq

def extractFinancialData (t : List Char) : FinancialData :=
  { currency_amounts :=
      runScan dollarMatch t ++
      runScan (codeMatch "usd".toList) t ++
      runScan (codeMatch "eur".toList) t ++
      runScan (codeMatch "gbp".toList) t
    percentages := runScan percentMatch t
    financial_terms := financial_terms.filter (fun term => termPresent term t) }

/-! ### Business terms (`_extract_business_terms`) -/

def business_terms_vocab : List String :=
  [ "startup", "company", "corporation", "LLC", "Inc", "Ltd"
  , "CEO", "CTO", "CFO", "founder", "co-founder", "president"
  , "venture capital", "angel investor", "seed funding", "Series A"
  , "IPO", "acquisition", "merger", "partnership", "collaboration"
  , "market", "customer", "user", "client", "revenue model"
  , "business model", "value proposition", "competitive advantage" ]

def extractBusinessTerms (t : List Char) : List String :=
  business_terms_vocab.filter (fun term => termPresent term t)

/-! ### Key entities (`_extract_key_entities`)

Pattern `\b[A-Z][a-z]+(?:\s+[A-Z][a-z]+)*\b`: lower-case runs are matched
maximally (shrinking one never restores the trailing boundary, since the
following character would be a lower-case letter), and trailing groups are
dropped greedily until the boundary holds. -/

/-- `[A-Z][a-z]+` with a maximal lower-case run. -/
def capWordAt : List Char → Option Nat
  | [] => none
  | c :: rest =>
    if c.isUpper then
      let lows := rest.takeWhile Char.isLower
      if lows.isEmpty then none else some (1 + lows.length)
    else none

/-- Cumulative end offsets after zero or more `\s+[A-Z][a-z]+` extensions,
in increasing order. -/
def entChain : Nat → List Char → Nat → List Nat
  | 0, _, e => [e]
  | fuel + 1, rest, e =>
    let ws := rest.takeWhile pySpace
    if ws.isEmpty then [e]
    else
      match capWordAt (rest.drop ws.length) with
      | some n => e :: entChain fuel (rest.drop (ws.length + n)) (e + ws.length + n)
      | none => [e]

/-- The matcher: the longest extension chain whose end satisfies the trailing
word boundary wins. -/
def entityMatch (prev : Option Char) (t : List Char) : Option Nat :=
  if !boundaryBefore prev then none
  else
    match capWordAt t with
    | none => none
    | some base =>
      let ends := entChain t.length (t.drop base) base
      (ends.reverse.filter (fun e => boundaryAfter (t.drop e))).head?

def entity_common_words : List (List Char) :=
  ["The", "This", "That", "There", "Here", "Where", "When", "How", "What", "Why"].map
    String.toList

def extractKeyEntities (t : List Char) : List (List Char) :=
  let potential := runScan entityMatch t
  ((potential.filter fun comp =>
      !(entity_common_words.contains comp) && comp.length > 3).take 10)

/-! ### Important numbers (`_extract_important_numbers`) -/

/-- `\b\d{4,}\b`. -/
def bigNumMatch (prev : Option Char) (t : List Char) : Option Nat :=
  if !boundaryBefore prev then none
  else
    let run := t.takeWhile Char.isDigit
    if run.length ≥ 4 && boundaryAfter (t.drop run.length) then some run.length
    else none

/-- `\b\d+\.\d+\b`. -/
def decimalMatch (prev : Option Char) (t : List Char) : Option Nat :=
  if !boundaryBefore prev then none
  else
    let r1 := t.takeWhile Char.isDigit
    if r1.isEmpty then none
    else
      match t.drop r1.length with
      | '.' :: r =>
        let r2 := r.takeWhile Char.isDigit
        if !r2.isEmpty && boundaryAfter (r.drop r2.length) then
          some (r1.length + 1 + r2.length)
        else none
      | _ => none

def extractImportantNumbers (t : List Char) : List (List Char) :=
  (runScan bigNumMatch t ++ runScan decimalMatch t).take 20

/-! ### Contact information (`_extract_contact_information`) -/

def addr_suffixes : List (List Char) :=
  [ "street", "st", "avenue", "ave", "road", "rd", "drive", "dr"
  , "lane", "ln", "boulevard", "blvd" ].map String.toList

def matchAddrSuffix (t : List Char) : Option Nat :=
  addr_suffixes.findSome? fun s =>
    if pyLower (t.take s.length) = s && (t.take s.length).length = s.length then
      some s.length
    else none

/-- Greedy search for the latest class-run split followed by a street suffix. -/
def bestSuffixPos (body : List Char) : Nat → Option (Nat × Nat)
  | 0 => none
  | p + 1 =>
    match matchAddrSuffix (body.drop (p + 1)) with
    | some sl => some (p + 1, sl)
    | none => bestSuffixPos body p

/-- `\d+\s+[A-Za-z\s]+(Street|St|...)` with `re.IGNORECASE`. -/
def addrMatch (_ : Option Char) (t : List Char) : Option Nat :=
  let ds := t.takeWhile Char.isDigit
  if ds.isEmpty then none
  else
    let ws := (t.drop ds.length).takeWhile pySpace
    if ws.isEmpty then none
    else
      let body := t.drop (ds.length + ws.length)
      let run := body.takeWhile (fun c => c.isAlpha || pySpace c)
      match bestSuffixPos body run.length with
      | some psl => some (ds.length + ws.length + psl.1 + psl.2)
      | none => none

def findAddresses (t : List Char) : List (List Char) := runScan addrMatch t

/-- `(?:www\.)?[a-zA-Z0-9-]+\.[a-zA-Z]{2,}(?:/[^\s]*)?` (case-sensitive). -/
def websiteMatch (_ : Option Char) (t : List Char) : Option Nat :=
  let core : List Char → Option Nat := fun s =>
    let run := s.takeWhile (fun c => c.isAlpha || c.isDigit || c = '-')
    if run.isEmpty then none
    else
      match s.drop run.length with
      | '.' :: r =>
        let tld := r.takeWhile Char.isAlpha
        if tld.length < 2 then none
        else
          let pathLen :=
            match r.drop tld.length with
            | '/' :: pr => 1 + (pr.takeWhile (fun c => !pySpace c)).length
            | _ => 0
          some (run.length + 1 + tld.length + pathLen)
      | _ => none
  match t with
  | 'w' :: 'w' :: 'w' :: '.' :: r =>
    match core r with
    | some n => some (4 + n)
    | none => core t
  | _ => core t

def findWebsites (t : List Char) : List (List Char) := runScan websiteMatch t

structure ContactInfo where
  emails : List (List Char)
  phone_numbers : List PhoneGroups
  addresses : List (List Char)
  websites : List (List Char)
  deriving Repr, DecidableEq

def extractContactInformation (t : List Char) (emails : List (List Char))
    (phones : List PhoneGroups) : ContactInfo :=
  { emails := emails
    phone_numbers := phones
    addresses := findAddresses t
    websites := findWebsites t }

/-! ### Summary and confidence -/

def generateDocumentSummary (t : List Char) (_file_extension : List Char) : List Char :=
  if t.isEmpty || t.length < 100 then "Document contains minimal content.".toList
  else
    let sentences := (pySplitSent t).take 3
    let kept := (sentences.map pyStrip).filter (fun s => !s.isEmpty)
    let summary := (kept.intersperse ". ".toList).flatten
    if summary.length > 200 then summary.take 200 ++ "...".toList else summary

def calculateExtractionConfidence (t file_extension : List Char) : ℚ :=
  if t.isEmpty then 0
  else
    let c : ℚ := 8 / 10
    let c := if file_extension = ".txt".toList || file_extension = ".docx".toList then
        c + 1 / 10
      else if file_extension = ".pdf".toList || file_extension = ".tiff".toList then
        c + 1 / 20
      else if file_extension = ".png".toList || file_extension = ".jpg".toList ||
          file_extension = ".jpeg".toList then c
      else if file_extension = ".eml".toList || file_extension = ".msg".toList then
        c + 1 / 20
      else c
    let c := if t.length > 1000 then c + 1 / 20 else c
    let c := if t.any Char.isAlpha then c + 1 / 20 else c
    min 1 c

/-! ### The extractor -/

structure KeyInformation where
  document_title : List Char
  key_entities : List (List Char)
  important_numbers : List (List Char)
  dates : List (List Char)
  email_addresses : List (List Char)
  urls : List (List Char)
  phone_numbers : List (List Char)
  financial_data : Option FinancialData
  contact_information : Option ContactInfo
  business_terms : List String
  summary : List Char
  extraction_confidence : Option ℚ
  deriving Repr, DecidableEq

/-- The record returned for empty or whitespace-only text.  The
`financial_data` and `contact_information` fields are the empty dictionary
(`none`), and the `extraction_confidence` key is absent from this branch. -/
def emptyKeyInformation : KeyInformation :=
  { document_title := []
    key_entities := []
    important_numbers := []
    dates := []
    email_addresses := []
    urls := []
    phone_numbers := []
    financial_data := none
    contact_information := none
    business_terms := []
    summary := "No content to analyze".toList
    extraction_confidence := none }

def extractKeyInformation (text file_extension filename : List Char) : KeyInformation :=
  if pyBlank text then emptyKeyInformation
  else
    let email_addresses := findEmails text
    let phone_groups := findPhones text
    { document_title := generateDocumentTitle text filename
      key_entities := extractKeyEntities text
      important_numbers := extractImportantNumbers text
      dates := findDates text
      email_addresses := firstDedup email_addresses
      urls := firstDedup (findUrls text)
      phone_numbers := phone_groups.map (fun g => g.g1 ++ g.g2 ++ g.g3 ++ g.g4)
      financial_data := some (extractFinancialData text)
      contact_information :=
        some (extractContactInformation text email_addresses phone_groups)
      business_terms := extractBusinessTerms text
      summary := generateDocumentSummary text file_extension
      extraction_confidence := some (calculateExtractionConfidence text file_extension) }

/-! ## File metadata (`_generate_file_metadata`)

The hash and timestamp are derived from the wall clock and are supplied by the
environment; nothing in the body can raise, so the fallback branch of the
source is unreachable and not modelled. -/

def getFileCategory (ext : List Char) : String :=
  if ext = ".pdf".toList then "document"
  else if ext = ".docx".toList then "document"
  else if ext = ".txt".toList then "text"
  else if ext = ".png".toList then "image"
  else if ext = ".jpg".toList then "image"
  else if ext = ".jpeg".toList then "image"
  else if ext = ".tiff".toList then "image"
  else if ext = ".eml".toList then "email"
  else if ext = ".msg".toList then "email"
  else "unknown"

def getSupportedOperations (ext : List Char) : List String :=
  if ext = ".pdf".toList then ["ocr", "text_extraction", "structure_analysis"]
  else if ext = ".docx".toList then
    ["text_extraction", "structure_analysis", "metadata_extraction"]
  else if ext = ".txt".toList then ["text_extraction", "content_analysis"]
  else if ext = ".png".toList then ["ocr", "text_extraction"]
  else if ext = ".jpg".toList then ["ocr", "text_extraction"]
  else if ext = ".jpeg".toList then ["ocr", "text_extraction"]
  else if ext = ".tiff".toList then ["ocr", "text_extraction"]
  else if ext = ".eml".toList then ["email_parsing", "text_extraction", "header_extraction"]
  else if ext = ".msg".toList then ["email_parsing", "text_extraction", "header_extraction"]
  else ["text_extraction"]

def confidence_scores : List (String × ℚ) :=
  [ ("Google Cloud Document AI", 19 / 20)
  , ("python-docx", 49 / 50)
  , ("extract-msg", 9 / 10)
  , ("Python email library", 17 / 20)
  , ("Direct text reading", 99 / 100) ]

/-- `processing_method.split('(')[0].strip()`. -/
def methodKey (method : String) : List Char :=
  pyStrip (method.toList.takeWhile (fun c => c ≠ '('))

def processingConfidence (method : String) : ℚ :=
  ((confidence_scores.findSome? fun p =>
      if p.1.toList = methodKey method then some p.2 else none).getD (4 / 5))

structure FileMetadata where
  filename : List Char
  file_extension : List Char
  /-- Absent from the exception-fallback record. -/
  file_category : Option String
  /-- `none` models the Python value `None` (the `size` of an unloaded
  remote blob, which the source does not guard against). -/
  file_size_bytes : Option Nat
  /-- Absent from the exception-fallback record. -/
  file_size_mb : Option ℚ
  processing_method : String
  /-- Rounded to 3 places in the main record, raw in the fallback. -/
  processing_time_seconds : ℚ
  /-- Absent from the exception-fallback record. -/
  processing_confidence : Option ℚ
  is_gcs_url : Bool
  file_path : List Char
  /-- Absent from the exception-fallback record. -/
  file_hash : Option String
  timestamp : String
  /-- Absent from the exception-fallback record. -/
  supported_operations : Option (List String)
  /-- Present only in the exception-fallback record. -/
  metadata_error : Option String
  deriving Repr, DecidableEq

/-- `_generate_file_metadata`.  `file_size` is `none` when the Python value is
`None` — the case for every remote locator, since `bucket.blob(name).size` is
a local property that is `None` for an unloaded blob.  A `None` size makes
`file_size / (1024 * 1024)` raise `TypeError`, so the `except` branch returns
the reduced fallback record; with an integer size nothing in the body can
raise. -/
def generateFileMetadata (filename file_extension : List Char) (file_size : Option Nat)
    (method : String) (ptime : ℚ) (is_gcs : Bool) (file_path : List Char)
    (hashStr now : String) : FileMetadata :=
  match file_size with
  | some n =>
    { filename := filename
      file_extension := file_extension
      file_category := some (getFileCategory file_extension)
      file_size_bytes := some n
      file_size_mb := some (pyRound2 ((n : ℚ) / (1024 * 1024)))
      processing_method := method
      processing_time_seconds := pyRound3 ptime
      processing_confidence := some (processingConfidence method)
      is_gcs_url := is_gcs
      file_path := file_path
      file_hash := some hashStr
      timestamp := now
      supported_operations := some (getSupportedOperations file_extension)
      metadata_error := none }
  | none =>
    { filename := filename
      file_extension := file_extension
      file_category := none
      file_size_bytes := none
      file_size_mb := none
      processing_method := method
      processing_time_seconds := ptime
      processing_confidence := none
      is_gcs_url := is_gcs
      file_path := file_path
      file_hash := none
      timestamp := now
      supported_operations := none
      metadata_error :=
        some "unsupported operand type(s) for /: 'NoneType' and 'int'" }

/-! ## The tool (`doc_ingestion_tool`)

External collaborators (Document AI, object storage, the parsing libraries)
are modelled as an oracle environment.  Every interaction is recorded in an
event trace.  The two size-lookup events performed before the extension
dispatch are local: `localStat` is the local filesystem `os.path.getsize`,
and `blobSizeAccess` is the remote-locator size block, which constructs a
storage client and reads `bucket.blob(name).size` — a local property of an
unloaded blob that issues no object-storage request and evaluates to `None`
(the sibling audio tool guards this with `blob.size or 0`; this tool does
not).  The remaining events are extraction-backend API calls.  The local
PDF/TIFF path (`_ocr_pdf_document`, the OCR Adaptive Executor) is modelled in
full; the other extraction helpers are atomic oracle calls whose exceptions
each helper wraps into a generic `Exception`, as in the source. -/

inductive Event where
  | blobSizeAccess
  | localStat
  | syncOcrCall
  | getBucket
  | createBucket
  | uploadBlob
  | submitBatch
  | awaitBatch (timeoutSeconds : Nat)
  | listBlobs
  | downloadBlob
  | backendCall (method : String)
  deriving Repr, DecidableEq

/-- Events that issue a request to a remote service.  The pre-dispatch size
lookups are not network calls: `localStat` is a filesystem call and
`blobSizeAccess` only touches local client/blob objects. -/
def Event.isNetwork : Event → Bool
  | .blobSizeAccess => false
  | .localStat => false
  | _ => true

/-- Events that belong to an extraction backend (everything except the size
lookups performed before dispatch). -/
def Event.isBackend : Event → Bool
  | .blobSizeAccess => false
  | .localStat => false
  | _ => true

/-- A Python exception: class name and message. -/
structure PyErr where
  ty : String
  msg : String
  deriving Repr, DecidableEq

structure BatchBlob where
  name : String
  /-- The `document.text` field of the JSON artifact
  (`result_obj.get("document", {}).get("text", "")`). -/
  textField : List Char
  deriving Repr, DecidableEq

inductive BatchOutcome where
  /-- `operation.result(timeout=1800)` raised; the message is the string form
  of the timeout exception. -/
  | timeout (msg : String)
  | completed (blobs : List BatchBlob)
  deriving Repr, DecidableEq

structure OcrEnv where
  /-- Outcome of the synchronous `process_document` call; the error carries
  the string form of the exception. -/
  syncResult : Except String (List Char)
  /-- Whether `get_bucket` on the holding bucket succeeds. -/
  bucketExists : Bool
  batch : BatchOutcome
  deriving Repr

/-- The text of the first listed result blob whose name ends in `.json`, or
the empty string when none exists. -/
def firstJsonText (blobs : List BatchBlob) : List Char :=
  ((blobs.find? fun b => b.name.endsWith ".json").map BatchBlob.textField).getD []

/-- `_ocr_pdf_document`: synchronous attempt; on any exception, ensure the
holding bucket, upload, submit one batch job, await it with a 1800-second
bound, and read the first JSON artifact (empty text when there is none).
Internal failures are re-raised wrapped in a generic `Exception`. -/
def ocrPdfDocument (env : OcrEnv) : Except PyErr (List Char) × List Event :=
  match env.syncResult with
  | .ok text => (.ok text, [.syncOcrCall])
  | .error _ =>
    let bucketEvs := if env.bucketExists then [Event.getBucket]
      else [Event.getBucket, Event.createBucket]
    let pre := Event.syncOcrCall :: bucketEvs ++
      [Event.uploadBlob, Event.submitBatch, Event.awaitBatch 1800]
    match env.batch with
    | .timeout msg =>
      (.error { ty := "Exception"
                msg := "Error processing PDF with Document AI (extended mode): " ++ msg },
       pre)
    | .completed blobs =>
      (.ok (firstJsonText blobs),
       pre ++ Event.listBlobs ::
         (if blobs.any (fun b => b.name.endsWith ".json") then [Event.downloadBlob] else []))

structure ToolEnv where
  /-- Whether constructing `storage.Client(project=...)` succeeds (local
  credential resolution).  When it does, `blob.size` on the unloaded blob is
  the Python value `None`; when it raises, the `except` sets the size to 0.
  No object-storage request happens either way. -/
  gcsClientOk : Bool
  /-- `os.path.getsize` for local paths; `none` models an exception
  (caught, size falls back to 0). -/
  localSize : Option Nat
  /-- Environment of the local PDF/TIFF OCR executor. -/
  ocr : OcrEnv
  /-- Oracle for the remaining extraction helpers, keyed by processing-method
  string; errors carry the underlying exception text. -/
  backend : String → Except String (List Char)
  /-- `datetime.datetime.now().isoformat()`. -/
  now : String
  /-- The md5-derived file hash (clock-dependent). -/
  hashStr : String
  /-- Extraction wall time in seconds. -/
  ptime : ℚ

def supported_formats : List String :=
  [".pdf", ".tiff", ".png", ".jpg", ".jpeg", ".docx", ".eml", ".msg", ".txt"]

def gs_scheme : List Char := "gs://".toList
def public_url_scheme : List Char := "https://storage.googleapis.com/".toList

def isGcsUrl (p : List Char) : Bool :=
  gs_scheme.isPrefixOf p || public_url_scheme.isPrefixOf p

/-- Generic split on a non-empty separator sequence (fueled; every step
consumes at least one character). -/
def splitOnListAux (sep : List Char) : Nat → List Char → List Char → List (List Char)
  | 0, l, acc => [acc.reverse ++ l]
  | fuel + 1, l, acc =>
    match l with
    | [] => [acc.reverse]
    | c :: rest =>
      if sep.isPrefixOf l then
        acc.reverse :: splitOnListAux sep fuel (l.drop sep.length) []
      else splitOnListAux sep fuel rest (c :: acc)

def splitOnList (sep l : List Char) : List (List Char) :=
  if sep.isEmpty then [l] else splitOnListAux sep l.length l []

/-- Python `str.replace(old, new)`: replace every occurrence. -/
def pyReplace (old new l : List Char) : List Char :=
  List.intercalate new (splitOnList old l)

/-- `s.split('/')[-1]` (also `os.path.basename` for POSIX paths). -/
def lastComponent (p : List Char) : List Char :=
  (splitOnList ['/'] p).getLastD []

structure CtxState where
  startup_information : Option (List Char) := none
  file_path : Option (List Char) := none
  file_type : Option (List Char) := none
  processing_method : Option String := none
  document_analysis : Option ContentAnalysis := none
  file_metadata : Option FileMetadata := none
  content_analysis : Option KeyInformation := none
  quality_metrics : Option QualityMetrics := none
  deriving Repr, DecidableEq

structure ToolResult where
  status : String
  error : Option String := none
  error_type : Option String := none
  supported_formats_field : Option (List String) := none
  timestamp : Option String := none
  extracted_text : Option (List Char) := none
  document_analysis : Option ContentAnalysis := none
  file_metadata : Option FileMetadata := none
  content_analysis : Option KeyInformation := none
  quality_metrics : Option QualityMetrics := none
  deriving Repr, DecidableEq

structure ToolOutput where
  result : ToolResult
  state : CtxState
  trace : List Event
  deriving Repr, DecidableEq

/-- Extension dispatch: `none` for an unsupported extension; otherwise the
extraction outcome, the processing-method string, and the backend events.
Helper exceptions are wrapped with the helper's message prefix and the generic
`Exception` class, as each helper does. -/
def dispatchExtraction (env : ToolEnv) (is_gcs : Bool) (ext : List Char) :
    Option (Except PyErr (List Char) × String × List Event) :=
  let atomic := fun (method : String) (errPre : String) =>
    some (match env.backend method with
      | .ok t => (Except.ok t, method, [Event.backendCall method])
      | .error m =>
        (Except.error { ty := "Exception", msg := errPre ++ m }, method,
         [Event.backendCall method]))
  if ext = ".pdf".toList || ext = ".tiff".toList then
    if is_gcs then
      atomic "Google Cloud Document AI (PDF/TIFF from GCS)"
        "Error processing PDF from GCS with Document AI (extended mode): "
    else
      let r := ocrPdfDocument env.ocr
      some (r.1, "Google Cloud Document AI (PDF/TIFF)", r.2)
  else if ext = ".png".toList || ext = ".jpeg".toList || ext = ".jpg".toList then
    if is_gcs then
      atomic "Google Cloud Document AI (Image from GCS)"
        "Error processing image from GCS with Document AI: "
    else
      atomic "Google Cloud Document AI (Image)"
        "Error processing image with Document AI: "
  else if ext = ".docx".toList then
    if is_gcs then atomic "python-docx (from GCS)" "Error processing DOCX file from GCS: "
    else atomic "python-docx" "Error processing DOCX file: "
  else if ext = ".eml".toList then
    if is_gcs then
      atomic "Python email library (from GCS)" "Error processing EML file from GCS: "
    else atomic "Python email library" "Error processing EML file: "
  else if ext = ".msg".toList then
    if is_gcs then atomic "extract-msg (from GCS)" "Error processing MSG file from GCS: "
    else atomic "extract-msg" "Error processing MSG file: "
  else if ext = ".txt".toList then
    if is_gcs then
      atomic "Direct text reading (from GCS)" "Error processing TXT file from GCS: "
    else atomic "Direct text reading" "Error processing TXT file: "
  else none

/-- The failure record returned for an unsupported extension. -/
def unsupportedResult (ext : List Char) : ToolResult :=
  { status := "failure"
    error := some ("Unsupported file format: " ++ String.mk ext)
    supported_formats_field := some supported_formats }

/-- The canonical `gs://` form of a locator (public URLs are rewritten by
`str.replace`, which substitutes every occurrence). -/
def canonicalUri (file_path : List Char) : List Char :=
  if public_url_scheme.isPrefixOf file_path then
    pyReplace public_url_scheme gs_scheme file_path
  else file_path

/-- The filename resolved from a locator: the last slash-separated component
of the canonical URI for remote locators, the basename for local paths. -/
def resolvedFilename (file_path : List Char) : List Char :=
  if isGcsUrl file_path then lastComponent (canonicalUri file_path)
  else lastComponent file_path

/-- The lower-cased extension resolved from a locator. -/
def resolvedExtension (file_path : List Char) : List Char :=
  pyLower (splitextExt (resolvedFilename file_path))

/-- The supported extension set, as character lists. -/
def supportedExtensions : List (List Char) := supported_formats.map String.toList

def docIngestionTool (env : ToolEnv) (file_path : List Char) (st : CtxState) :
    ToolOutput :=
  let is_gcs := isGcsUrl file_path
  let filename := resolvedFilename file_path
  let file_extension := resolvedExtension file_path
  let sizeEvs := if is_gcs then [Event.blobSizeAccess] else [Event.localStat]
  let file_size : Option Nat :=
    if is_gcs then (if env.gcsClientOk then none else some 0)
    else some (env.localSize.getD 0)
  match dispatchExtraction env is_gcs file_extension with
  | none =>
    { result := unsupportedResult file_extension, state := st, trace := sizeEvs }
  | some (.error e, _, evs) =>
    { result :=
        { status := "failure", error := some e.msg, error_type := some e.ty
          timestamp := some env.now }
      state := st
      trace := sizeEvs ++ evs }
  | some (.ok text, method, evs) =>
    let document_analysis := analyzeDocumentContent text file_extension filename
    let file_metadata := generateFileMetadata filename file_extension file_size method
      env.ptime is_gcs file_path env.hashStr env.now
    let quality_metrics := analyzeContentQuality text
    let content_analysis := extractKeyInformation text file_extension filename
    let st' : CtxState :=
      { startup_information :=
          match st.startup_information with
          | some prior => some (prior ++ "\n\n\n\n\n".toList ++ text)
          | none => some text
        file_path := some file_path
        file_type := some file_extension
        processing_method := some method
        document_analysis := some document_analysis
        file_metadata := some file_metadata
        content_analysis := some content_analysis
        quality_metrics := some quality_metrics }
    { result :=
        { status := "success"
          document_analysis := some document_analysis
          extracted_text := some text
          file_metadata := some file_metadata
          content_analysis := some content_analysis
          quality_metrics := some quality_metrics }
      state := st'
      trace := sizeEvs ++ evs }

/-! ## Shared lemmas -/

/-- The sequentially-computed quality score equals its closed form. -/
theorem qualityScore_closed (t : List Char) :
    qualityScore t =
      max 0 (min 100 ((100 : Int)
        - (if 10 * whitespaceChars t > 3 * t.length then 20 else 0)
        - (if 10 * specialChars t > t.length then 15 else 0)
        - (if 10 * lineBreaks t > t.length then 10 else 0)
        - 5 * (ocrIssues t).length)) := by
  unfold qualityScore
  dsimp only
  split_ifs <;> omega

/-- Rounding an integer is the identity. -/
theorem roundHalfEven_intCast (n : ℤ) : roundHalfEven (n : ℚ) = n := by
  unfold roundHalfEven
  dsimp only
  rw [Int.floor_intCast]
  norm_num

/-- `round(x, 3)` is the identity on hundredths of an integer. -/
theorem pyRound3_int_div100 (s : ℤ) : pyRound3 ((s : ℚ) / 100) = (s : ℚ) / 100 := by
  unfold pyRound3
  have h : (1000 : ℚ) * ((s : ℚ) / 100) = ((10 * s : ℤ) : ℚ) := by push_cast; ring
  rw [h, roundHalfEven_intCast]
  push_cast; ring

/-! ## C2 — empty input short-circuits -/

/-- **C2** (confirmed): for empty or whitespace-only text, the Content
Analyzer and the Key Information Extractor each return their fully-populated
empty structure (zero counts, language `unknown`, document type `empty`,
empty lists) instead of raising. -/
theorem C2_empty_input_structures (t ext fn : List Char) (h : pyBlank t = true) :
    analyzeDocumentContent t ext fn = emptyContentAnalysis ∧
    extractKeyInformation t ext fn = emptyKeyInformation := by
  unfold analyzeDocumentContent extractKeyInformation
  simp [h]

theorem C2_empty_input_structures_witness :
    pyBlank " \n\t ".toList = true ∧
    (analyzeDocumentContent " \n\t ".toList ".txt".toList "f.txt".toList =
        emptyContentAnalysis ∧
      extractKeyInformation " \n\t ".toList ".txt".toList "f.txt".toList =
        emptyKeyInformation) :=
  ⟨by decide, C2_empty_input_structures _ _ _ (by decide)⟩

/-! ## C3 — the quality-score formula -/

/-- The score formula as the claim literally words it: the
"whitespace-character ratio" counts every Python whitespace character and the
"non-alphanumeric-character ratio" counts every character that is not a letter
or a digit.  The source instead counts only space/tab/newline for the former
and only characters outside `\w` and `\s` (treating underscore as a word
character and exempting whitespace) for the latter. -/
def claimedQualityScoreLiteral (t : List Char) : Int :=
  max 0 (min 100 ((100 : Int)
    - (if 10 * t.countP pySpace > 3 * t.length then 20 else 0)
    - (if 10 * t.countP (fun c => !(c.isAlpha || c.isDigit)) > t.length then 15 else 0)
    - (if 10 * lineBreaks t > t.length then 10 else 0)
    - 5 * (ocrIssues t).length))

/-- **C3** (counterexample): on `"aaaaaaaa__"` the two underscores are word
characters for the source (special-character count 0, score 100), while the
claim's literal non-alphanumeric ratio is 0.2 > 0.1 and would deduct 15. -/
theorem C3_counterexample :
    (analyzeContentQuality "aaaaaaaa__".toList).text_quality_score = 100 ∧
    claimedQualityScoreLiteral "aaaaaaaa__".toList = 85 ∧ (100 : Int) ≠ 85 := by
  decide

/-- **C3** (amended): for every text, the Quality Scorer returns the
empty-content record on blank input, and otherwise its score is 100 minus 20
when the space/tab/newline ratio exceeds 0.3, minus 15 when the ratio of
characters outside the word and whitespace classes exceeds 0.1, minus 10 when
the newline ratio exceeds 0.1, minus 5 per detected OCR artifact, clamped to
[0,100]; the confidence is score/100 and the integrity tier is
excellent/good/fair/poor at the 90/75/60 cuts. -/
theorem C3_quality_scorer_formula (t : List Char) :
    analyzeContentQuality t =
      if pyBlank t then emptyQualityMetrics
      else
        let score : Int :=
          max 0 (min 100 ((100 : Int)
            - (if 10 * whitespaceChars t > 3 * t.length then 20 else 0)
            - (if 10 * specialChars t > t.length then 15 else 0)
            - (if 10 * lineBreaks t > t.length then 10 else 0)
            - 5 * (ocrIssues t).length))
        { text_quality_score := score
          ocr_confidence := (score : ℚ) / 100
          encoding_issues := if hasNonAscii t then 1 else 0
          special_characters_ratio_num := specialChars t
          whitespace_ratio_num := whitespaceChars t
          line_breaks_ratio_num := lineBreaks t
          quality_issues := ocrIssues t
          text_integrity :=
            if score ≥ 90 then "excellent"
            else if score ≥ 75 then "good"
            else if score ≥ 60 then "fair"
            else "poor"
          total_characters := some t.length
          readable_characters := some ((t.length : Int) - specialChars t) } := by
  unfold analyzeContentQuality
  cases hb : pyBlank t
  · simp only [Bool.false_eq_true, if_false, ← qualityScore_closed, pyRound3_int_div100,
      integrityOf]
  · simp

/-! ## C6 — score monotonicity under character degradation -/

/-- The claim's premise: the second text is obtained from the first by
replacing characters with whitespace or special (non-alphanumeric)
characters. -/
def replacedWithWsOrSpecial (t1 t2 : List Char) : Bool :=
  t1.length = t2.length &&
    (t1.zip t2).all (fun p => p.2 = p.1 || pySpace p.2 || !(p.2.isAlpha || p.2.isDigit))

/-- **C6** (counterexample): replacing the letter of `"a b"` with a space
removes the word-splitting OCR artifact, and the score rises from 75 to 80,
refuting monotonicity. -/
theorem C6_counterexample :
    replacedWithWsOrSpecial "a b".toList "  b".toList = true ∧
    (analyzeContentQuality "a b".toList).text_quality_score = 75 ∧
    (analyzeContentQuality "  b".toList).text_quality_score = 80 ∧
    ¬((80 : Int) ≤ 75) := by
  decide

/-- **C6** (amended): for equal-length texts, the quality score is
non-increasing whenever the whitespace, special-character and line-break
counts and the number of detected OCR artifacts all do not decrease. -/
theorem C6_quality_score_monotone (t1 t2 : List Char)
    (hlen : t1.length = t2.length)
    (hws : whitespaceChars t1 ≤ whitespaceChars t2)
    (hsp : specialChars t1 ≤ specialChars t2)
    (hlb : lineBreaks t1 ≤ lineBreaks t2)
    (hoi : (ocrIssues t1).length ≤ (ocrIssues t2).length) :
    qualityScore t2 ≤ qualityScore t1 := by
  rw [qualityScore_closed, qualityScore_closed, hlen]
  refine max_le_max le_rfl (min_le_min le_rfl ?_)
  split_ifs <;> omega

theorem C6_quality_score_monotone_witness :
    ("hello!world".toList.length = "hello !orld".toList.length ∧
      whitespaceChars "hello!world".toList ≤ whitespaceChars "hello !orld".toList ∧
      specialChars "hello!world".toList ≤ specialChars "hello !orld".toList ∧
      lineBreaks "hello!world".toList ≤ lineBreaks "hello !orld".toList ∧
      (ocrIssues "hello!world".toList).length ≤ (ocrIssues "hello !orld".toList).length) ∧
    qualityScore "hello !orld".toList ≤ qualityScore "hello!world".toList :=
  ⟨⟨by decide, by decide, by decide, by decide, by decide⟩,
    C6_quality_score_monotone _ _ (by decide) (by decide) (by decide) (by decide)
      (by decide)⟩

/-! ## C7 — language detection -/

/-- **C7** (counterexample): on `"the el"` the English and Spanish stop-word
counts tie at the maximum (1 each, French 0), yet the detector answers
`spanish`, not `unknown` as the majority-vote-with-ties claim requires. -/
theorem C7_counterexample :
    englishCount "the el".toList = 1 ∧ spanishCount "the el".toList = 1 ∧
    frenchCount "the el".toList = 0 ∧
    detectLanguage "the el".toList = "spanish" ∧ "spanish" ≠ "unknown" := by
  decide

/-- **C7** (amended): the language guess is an ordered cascade over the three
stop-word substring counts: `english` when its count strictly exceeds both
others; otherwise `spanish` when its count strictly exceeds the French count;
otherwise `french` when that count is positive; otherwise `unknown` (so no
match at all yields `unknown`, but ties can resolve to `spanish`). -/
theorem C7_language_cascade (t : List Char) :
    detectLanguage t =
      if englishCount t > spanishCount t ∧ englishCount t > frenchCount t then "english"
      else if spanishCount t > frenchCount t then "spanish"
      else if frenchCount t > 0 then "french"
      else "unknown" := by
  unfold detectLanguage
  simp only [Bool.and_eq_true, decide_eq_true_eq, gt_iff_lt]

/-! ## C8 — document-type classification -/

/-- **C8** (confirmed): the classifier always lands in the closed nine-value
set, and equals the fixed first-match-wins priority cascade over the keyword
tests (text keywords in priority order, then filename cues, then the
default). -/
theorem C8_classifier_closed_set (text ext filename : List Char) :
    classifyDocumentType text ext filename ∈
      ["pitch_deck", "business_plan", "financial_document", "legal_document",
        "resume", "email", "invoice", "report", "general_document"] ∧
    classifyDocumentType text ext filename =
      (if anyKeyword pitch_deck_kws (pyLower text) then "pitch_deck"
       else if anyKeyword business_plan_kws (pyLower text) then "business_plan"
       else if anyKeyword financial_document_kws (pyLower text) then "financial_document"
       else if anyKeyword legal_document_kws (pyLower text) then "legal_document"
       else if anyKeyword resume_kws (pyLower text) then "resume"
       else if anyKeyword email_kws (pyLower text) then "email"
       else if anyKeyword invoice_kws (pyLower filename) then "invoice"
       else if anyKeyword report_kws (pyLower filename) then "report"
       else "general_document") := by
  constructor
  · unfold classifyDocumentType
    dsimp only
    split_ifs <;> simp
  · rfl

/-! ## C9 — the document-title rule -/

/-- **C9** (counterexample): a single lower-case line of length exactly 10
satisfies the claim's `[10,100)` window, but the source requires a length
strictly greater than 10 and falls back to the filename stem. -/
theorem C9_counterexample :
    (pySplitNl "abcdefghij".toList).take 10 = ["abcdefghij".toList] ∧
    (pyStrip "abcdefghij".toList).length = 10 ∧
    pyIsUpper (pyStrip "abcdefghij".toList) = false ∧
    generateDocumentTitle "abcdefghij".toList "file.txt".toList = "file".toList ∧
    "file".toList ≠ "abcdefghij".toList := by
  decide

/-- The amended title rule: the first of the first 10 lines whose stripped
length lies strictly between 10 and 100 and which is not fully upper-case;
otherwise the filename stem. -/
def titleSpecAmended (text filename : List Char) : List Char :=
  ((((pySplitNl text).take 10).map pyStrip).find? titlePred).getD
    (splitextStem filename)

/-- The scanning loop agrees with the find-first formulation. -/
theorem titleFromLines_eq_find (fallback : List Char) (lines : List (List Char)) :
    titleFromLines fallback lines =
      ((lines.map pyStrip).find? titlePred).getD fallback := by
  induction lines with
  | nil => rfl
  | cons l ls ih =>
    simp only [titleFromLines, List.map_cons]
    by_cases h : titlePred (pyStrip l) = true
    · rw [if_pos h, List.find?_cons_of_pos _ h, Option.getD_some]
    · rw [if_neg h, List.find?_cons_of_neg _ h, ih]

/-- **C9** (amended): the generated title is the first line among the first 10
whose stripped length is in (10,100) and which is not fully upper-case, with
the filename stem as fallback. -/
theorem C9_title_rule (text filename : List Char) :
    generateDocumentTitle text filename = titleSpecAmended text filename := by
  unfold generateDocumentTitle titleSpecAmended
  exact titleFromLines_eq_find _ _

/-! ## Tool-level claims (C1, C4, C5, C10) -/

/-- A concrete oracle environment for witnesses. -/
def sampleEnv : ToolEnv :=
  { gcsClientOk := true
    localSize := some 2048
    ocr :=
      { syncResult := .ok "sample text".toList
        bucketExists := true
        batch := .completed [] }
    backend := fun _ => .ok "sample text".toList
    now := "2024-01-01T00:00:00"
    hashStr := "0123456789abcdef"
    ptime := 1 / 10 }

/-- An unsupported extension makes the dispatch return nothing. -/
theorem dispatchExtraction_unsupported (env : ToolEnv) (g : Bool) (ext : List Char)
    (h : ext ∉ supportedExtensions) :
    dispatchExtraction env g ext = none := by
  simp only [supportedExtensions, supported_formats, List.map_cons, List.map_nil,
    List.mem_cons, List.not_mem_nil, or_false, not_or] at h
  obtain ⟨h1, h2, h3, h4, h5, h6, h7, h8, h9⟩ := h
  unfold dispatchExtraction
  simp_all

/-- **C1** (confirmed): for every locator whose resolved (lower-cased)
extension is outside the supported set, the tool returns the failure record
listing the full supported-format set and invokes no extraction backend; the
unsupported-format check happens before any backend or network call — the
only event that can precede it is a local size lookup (`os.path.getsize`, or
the local `blob.size` property access that issues no object-storage request).
The shared state is also left untouched. -/
theorem C1_unsupported_format (env : ToolEnv) (path : List Char) (st : CtxState)
    (h : resolvedExtension path ∉ supportedExtensions) :
    (docIngestionTool env path st).result = unsupportedResult (resolvedExtension path) ∧
    (docIngestionTool env path st).result.status = "failure" ∧
    (docIngestionTool env path st).result.supported_formats_field =
      some supported_formats ∧
    (docIngestionTool env path st).trace.all (fun e => !e.isBackend) = true ∧
    (docIngestionTool env path st).trace.all (fun e => !e.isNetwork) = true ∧
    (docIngestionTool env path st).state = st := by
  have hd := dispatchExtraction_unsupported env (isGcsUrl path) _ h
  have hall : (docIngestionTool env path st).trace.all (fun e => !e.isBackend) = true := by
    simp only [docIngestionTool, hd]
    cases isGcsUrl path <;> simp [Event.isBackend]
  have hnet : (docIngestionTool env path st).trace.all (fun e => !e.isNetwork) = true := by
    simp only [docIngestionTool, hd]
    cases isGcsUrl path <;> simp [Event.isNetwork]
  refine ⟨?_, ?_, ?_, hall, hnet, ?_⟩ <;> simp [docIngestionTool, hd, unsupportedResult]

theorem C1_unsupported_format_witness :
    resolvedExtension "gs://bucket/file.xyz".toList ∉ supportedExtensions ∧
    ((docIngestionTool sampleEnv "gs://bucket/file.xyz".toList {}).result =
        unsupportedResult (resolvedExtension "gs://bucket/file.xyz".toList) ∧
      (docIngestionTool sampleEnv "gs://bucket/file.xyz".toList {}).result.status =
        "failure" ∧
      (docIngestionTool sampleEnv "gs://bucket/file.xyz".toList {}).result.supported_formats_field
        = some supported_formats ∧
      (docIngestionTool sampleEnv "gs://bucket/file.xyz".toList {}).trace.all
        (fun e => !e.isBackend) = true ∧
      (docIngestionTool sampleEnv "gs://bucket/file.xyz".toList {}).trace.all
        (fun e => !e.isNetwork) = true ∧
      (docIngestionTool sampleEnv "gs://bucket/file.xyz".toList {}).state = {}) :=
  ⟨by decide, C1_unsupported_format sampleEnv _ {} (by decide)⟩

/-- A concrete environment whose synchronous OCR call fails and whose batch
operation times out. -/
def envBatchTimeout : ToolEnv :=
  { sampleEnv with
    ocr :=
      { syncResult := .error "PAGE_LIMIT_EXCEEDED"
        bucketExists := true
        batch := .timeout "Operation did not complete within the designated timeout" } }

/-- **C4** (counterexample): when batch polling times out, the tool does fail
with no text, but the `error_type` is the generic wrapper class `Exception`,
not `BatchTimeout`. -/
theorem C4_counterexample :
    (docIngestionTool envBatchTimeout "big.pdf".toList {}).result.status = "failure" ∧
    (docIngestionTool envBatchTimeout "big.pdf".toList {}).result.error_type =
      some "Exception" ∧
    (docIngestionTool envBatchTimeout "big.pdf".toList {}).result.error_type ≠
      some "BatchTimeout" ∧
    (docIngestionTool envBatchTimeout "big.pdf".toList {}).result.extracted_text =
      none := by
  decide

/-- **C4** (amended): when the synchronous OCR call fails and the batch
operation exceeds the 30-minute bound, the tool returns `status="failure"`
with no extracted text; the `error_type` is `"Exception"` (the executor wraps
the timeout in a generic exception) and the timeout reason is embedded in the
error message. -/
theorem C4_batch_timeout (env : ToolEnv) (path : List Char) (st : CtxState)
    (m tm : String)
    (hext : resolvedExtension path = ".pdf".toList)
    (hloc : isGcsUrl path = false)
    (hsync : env.ocr.syncResult = .error m)
    (hbatch : env.ocr.batch = .timeout tm) :
    (docIngestionTool env path st).result.status = "failure" ∧
    (docIngestionTool env path st).result.error_type = some "Exception" ∧
    (docIngestionTool env path st).result.error =
      some ("Error processing PDF with Document AI (extended mode): " ++ tm) ∧
    (docIngestionTool env path st).result.extracted_text = none ∧
    Event.awaitBatch 1800 ∈ (docIngestionTool env path st).trace := by
  simp [docIngestionTool, dispatchExtraction, ocrPdfDocument, hext, hloc, hsync, hbatch]

theorem C4_batch_timeout_witness :
    (docIngestionTool envBatchTimeout "big.pdf".toList {}).result.status = "failure" ∧
    (docIngestionTool envBatchTimeout "big.pdf".toList {}).result.error_type =
      some "Exception" ∧
    (docIngestionTool envBatchTimeout "big.pdf".toList {}).result.error =
      some ("Error processing PDF with Document AI (extended mode): " ++
        "Operation did not complete within the designated timeout") ∧
    (docIngestionTool envBatchTimeout "big.pdf".toList {}).result.extracted_text =
      none ∧
    Event.awaitBatch 1800 ∈ (docIngestionTool envBatchTimeout "big.pdf".toList {}).trace :=
  C4_batch_timeout envBatchTimeout "big.pdf".toList {} "PAGE_LIMIT_EXCEEDED"
    "Operation did not complete within the designated timeout"
    (by decide) (by decide) rfl rfl

/-- When no result artifact is a JSON file, the batch reader yields the empty
string. -/
theorem firstJsonText_eq_empty (blobs : List BatchBlob)
    (h : ∀ b ∈ blobs, b.name.endsWith ".json" = false) :
    firstJsonText blobs = [] := by
  have hn : blobs.find? (fun b => b.name.endsWith ".json") = none :=
    List.find?_eq_none.mpr (fun b hb => by simp [h b hb])
  unfold firstJsonText
  rw [hn]
  rfl

/-- **C5** (confirmed): whenever the synchronous OCR call fails, the executor
submits exactly one batch job (creating the holding bucket only when absent),
awaits it with the 1800-second (30-minute) bound, and returns the text field
of the first JSON artifact — the empty string, not an error, when no artifact
exists. -/
theorem C5_batch_fallback (env : ToolEnv) (path : List Char) (st : CtxState)
    (m : String) (blobs : List BatchBlob)
    (hext : resolvedExtension path = ".pdf".toList)
    (hloc : isGcsUrl path = false)
    (hsync : env.ocr.syncResult = .error m)
    (hbatch : env.ocr.batch = .completed blobs) :
    (docIngestionTool env path st).result.status = "success" ∧
    (docIngestionTool env path st).result.extracted_text = some (firstJsonText blobs) ∧
    (docIngestionTool env path st).trace.count Event.submitBatch = 1 ∧
    Event.awaitBatch 1800 ∈ (docIngestionTool env path st).trace ∧
    (env.ocr.bucketExists = true →
      Event.createBucket ∉ (docIngestionTool env path st).trace) ∧
    (env.ocr.bucketExists = false →
      (docIngestionTool env path st).trace.count Event.createBucket = 1) ∧
    ((∀ b ∈ blobs, b.name.endsWith ".json" = false) →
      (docIngestionTool env path st).result.extracted_text = some []) := by
  refine ⟨?_, ?_, ?_, ?_, ?_, ?_, ?_⟩
  · simp [docIngestionTool, dispatchExtraction, ocrPdfDocument, hext, hloc, hsync, hbatch]
  · simp [docIngestionTool, dispatchExtraction, ocrPdfDocument, hext, hloc, hsync, hbatch]
  · simp only [docIngestionTool, dispatchExtraction, ocrPdfDocument, hext, hloc, hsync,
      hbatch]
    cases hb2 : env.ocr.bucketExists <;>
      cases hj : blobs.any (fun b => b.name.endsWith ".json") <;>
        simp [List.count_cons, List.count_append]
  · simp only [docIngestionTool, dispatchExtraction, ocrPdfDocument, hext, hloc, hsync,
      hbatch]
    cases hb2 : env.ocr.bucketExists <;>
      cases hj : blobs.any (fun b => b.name.endsWith ".json") <;> simp
  · intro hb2
    simp only [docIngestionTool, dispatchExtraction, ocrPdfDocument, hext, hloc, hsync,
      hbatch, hb2]
    cases hj : blobs.any (fun b => b.name.endsWith ".json") <;> simp
  · intro hb2
    simp only [docIngestionTool, dispatchExtraction, ocrPdfDocument, hext, hloc, hsync,
      hbatch, hb2]
    cases hj : blobs.any (fun b => b.name.endsWith ".json") <;>
      simp [List.count_cons, List.count_append]
  · intro hall
    simp [docIngestionTool, dispatchExtraction, ocrPdfDocument, hext, hloc, hsync,
      hbatch, firstJsonText_eq_empty blobs hall]

def witnessBlob : BatchBlob :=
  { name := "output/big-0.json", textField := "Recovered batch text".toList }

def envBatchDone : ToolEnv :=
  { sampleEnv with
    ocr :=
      { syncResult := .error "PAGE_LIMIT_EXCEEDED"
        bucketExists := false
        batch := .completed [witnessBlob] } }

theorem C5_batch_fallback_witness :
    (docIngestionTool envBatchDone "big.pdf".toList {}).result.status = "success" ∧
    (docIngestionTool envBatchDone "big.pdf".toList {}).result.extracted_text =
      some (firstJsonText [witnessBlob]) ∧
    (docIngestionTool envBatchDone "big.pdf".toList {}).trace.count Event.submitBatch = 1 ∧
    Event.awaitBatch 1800 ∈ (docIngestionTool envBatchDone "big.pdf".toList {}).trace ∧
    (envBatchDone.ocr.bucketExists = true →
      Event.createBucket ∉ (docIngestionTool envBatchDone "big.pdf".toList {}).trace) ∧
    (envBatchDone.ocr.bucketExists = false →
      (docIngestionTool envBatchDone "big.pdf".toList {}).trace.count Event.createBucket
        = 1) ∧
    ((∀ b ∈ [witnessBlob], b.name.endsWith ".json" = false) →
      (docIngestionTool envBatchDone "big.pdf".toList {}).result.extracted_text =
        some []) :=
  C5_batch_fallback envBatchDone "big.pdf".toList {} "PAGE_LIMIT_EXCEEDED" _
    (by decide) (by decide) rfl rfl

/-- **C10** (confirmed): whenever the tool reports `status="failure"` — an
unsupported format or any raised exception — the caller-supplied shared
context state is returned completely unchanged; the accumulator and the
structured sub-record keys are written only on the success path. -/
theorem C10_failure_leaves_state (env : ToolEnv) (path : List Char) (st : CtxState)
    (h : (docIngestionTool env path st).result.status = "failure") :
    (docIngestionTool env path st).state = st := by
  rcases hd : dispatchExtraction env (isGcsUrl path) (resolvedExtension path) with
    - | ⟨e | txt, method, evs⟩ <;>
    simp only [docIngestionTool, hd] at h ⊢
  simp at h

theorem C10_failure_leaves_state_witness :
    (docIngestionTool sampleEnv "report.xyz".toList {}).result.status = "failure" ∧
    (docIngestionTool sampleEnv "report.xyz".toList {}).state = {} :=
  ⟨by decide, C10_failure_leaves_state sampleEnv "report.xyz".toList {} (by decide)⟩

end DocIngestion
